import Mathlib

/-!
Shallow embedding of the sqlbrowser database gateway (server.js and the
mariadb URI resolver module) and proofs about its HTTP route handlers.

Modelling conventions:
* Driver values are `DbValue` (JSON-compatible values plus 64-bit `bigint`).
* A row is an association list from column name to value, in column order.
* `conn.query(...)` calls are modelled by an `FConn` record whose fields
  return `Except String _`: `.error msg` models a thrown driver error
  (caught by the `catch` block of the route), `.ok` a successful result.
* The `try/catch/finally` discipline of each route is modelled explicitly:
  each route returns a `RouteOutcome` carrying the HTTP status, the response
  body, and counters for `pool.getConnection()` / `conn.release()` calls.
* `page` and `limit` arrive as already-parsed values (`parseInt` results);
  the claims under study only concern positive integers and the literal
  sentinel "all", modelled by `LimitParam`.
-/

namespace SqlBrowser

/-- A driver-native / JSON value as seen by the row-processing code:
`null`, booleans, numbers, strings, and the 64-bit `bigint` of the driver. -/
inductive DbValue where
  | vNull : DbValue
  | vBool : Bool → DbValue
  | vNum : Int → DbValue
  | vStr : String → DbValue
  | vBigInt : Int → DbValue
deriving DecidableEq

/-- A row: mapping from column name to value (`Object.entries` order). -/
abbrev Row := List (String × DbValue)

/-- Embeds the per-field step of `processedRows` (server.js line 337):
`typeof value === bigint ? value.toString() : value`.  `BigInt.toString()`
is the decimal representation, `toString : Int → String` likewise. -/
def normalizeValue : DbValue → DbValue
  | .vBigInt n => .vStr (toString n)
  | v => v

/-- Embeds the row mapping of `processedRows` (server.js lines 334-340):
rebuild the row, applying `normalizeValue` to every field value. -/
def normalizeRow (r : Row) : Row :=
  r.map fun kv => (kv.1, normalizeValue kv.2)

/-- JavaScript `Number.MAX_SAFE_INTEGER` = 2^53 - 1, the bound of the
safe JSON-number range referred to by the spec. -/
def maxSafeInteger : Int := 2 ^ 53 - 1

/-- Modelled from the spec (§4.5 Value Normalizer contract), for comparison
with `normalizeValue` from the source: convert a 64-bit integer to its decimal
string only when it exceeds the safe JSON-number range; everything else,
including in-range 64-bit integers, passes through unchanged. -/
def specNormalizeValue : DbValue → DbValue
  | .vBigInt n =>
      if n < -maxSafeInteger ∨ maxSafeInteger < n then .vStr (toString n)
      else .vBigInt n
  | v => v

/-- The `limit` query parameter as used by the handler: the literal
sentinel `"all"`, or a parsed positive integer. -/
inductive LimitParam where
  | all : LimitParam
  | num : Nat → LimitParam
deriving DecidableEq

/-- One entry of a JSON:API `errors` array: `{status, title, detail}`. -/
structure ErrorObj where
  status : String
  title : String
  detail : String
deriving DecidableEq

/-- The serialized `meta.pagination` object (server.js lines 349-354).
The `limit` field is typed as a JSON value because the source expression
`limit === "all" ? total : parseInt(limit)` chooses what to serialize. -/
structure Pagination where
  page : Nat
  limit : DbValue
  total : Nat
  pages : Nat
deriving DecidableEq

/-- The serialized `meta` block of a table-data response. -/
structure TableMeta where
  tableName : String
  dbName : String
  pagination : Pagination
deriving DecidableEq

/-- Response body shapes produced by the routes. `successError` is the
`{success: false, error: message}` shape of server.js lines 361-364;
`errors` is the JSON:API `{errors: [...]}` shape. -/
inductive Body where
  | tableList : List String → Body
  | tableData : List Row → TableMeta → Body
  | queryResult : List Row → String → String → Body
  | errors : List ErrorObj → Body
  | successError : String → Body
deriving DecidableEq

/-- A fallible connection: each query either returns a result (`.ok`) or
throws a driver error with a message (`.error`), caught by `catch`. -/
structure FConn where
  showTables : Except String (List String)
  countTable : String → Except String Nat
  selectAll : String → Except String (List Row)
  selectPage : String → Nat → Nat → Except String (List Row)
  rawQuery : String → Except String (List Row)

/-- An abstract database state: its table names and the rows of each table. -/
structure Db where
  tables : List String
  rows : String → List Row

/-- The honest connection over a database state: `SHOW TABLES` lists the
tables, `SELECT COUNT(*)` returns the row count, `SELECT *` returns all
rows, and `LIMIT offset, n` returns at most `n` rows starting at `offset`. -/
def Db.conn (db : Db) : FConn where
  showTables := .ok db.tables
  countTable := fun t => .ok (db.rows t).length
  selectAll := fun t => .ok (db.rows t)
  selectPage := fun t off n => .ok (((db.rows t).drop off).take n)
  rawQuery := fun _ => .ok []

/-- Outcome of one route invocation: HTTP status, response body, and the
number of `pool.getConnection()` / `conn.release()` calls performed. -/
structure RouteOutcome where
  status : Nat
  body : Body
  acquires : Nat
  releases : Nat
deriving DecidableEq

/-- Embeds the pagination meta construction of server.js lines 349-354:
`limit: limit === "all" ? total : parseInt(limit)` and
`pages: limit === "all" ? 1 : Math.ceil(total / parseInt(limit))`.
For a positive integer limit `l`, `Math.ceil(total / l) = (total + l - 1) / l`
in natural-number division. -/
def mkPagination (page : Nat) (limit : LimitParam) (total : Nat) : Pagination where
  page := page
  limit := match limit with
    | .all => .vNum (total : Int)
    | .num l => .vNum (l : Int)
  total := total
  pages := match limit with
    | .all => 1
    | .num l => (total + l - 1) / l

/-- Embeds `GET /api/tables` (server.js lines 229-257): list tables on
success; on any thrown error respond 500 with a JSON:API errors body; the
`finally` clause releases the connection iff one was acquired. -/
def getTablesRoute (pool : Except String FConn) : RouteOutcome :=
  match pool with
  | .error e =>
      { status := 500, body := .errors [⟨"500", "Database Error", e⟩],
        acquires := 0, releases := 0 }
  | .ok conn =>
      match conn.showTables with
      | .ok tables =>
          { status := 200, body := .tableList tables,
            acquires := 1, releases := 1 }
      | .error e =>
          { status := 500, body := .errors [⟨"500", "Database Error", e⟩],
            acquires := 1, releases := 1 }

/-- Embeds `GET /api/tables/:tableName` (server.js lines 297-368):
validate the table against `SHOW TABLES` (404 with a JSON:API errors body
when absent), count rows, fetch either all rows (`limit === "all"`) or
`LIMIT (page-1)*limit, limit`, normalize every row, and attach pagination
meta.  A thrown driver error is caught and answered with status 500 and
the `{success: false, error}` body (server.js lines 361-364).  The
`finally` clause releases the connection iff one was acquired. -/
def getTableRoute (pool : Except String FConn) (dbName tableName : String)
    (page : Nat) (limit : LimitParam) : RouteOutcome :=
  match pool with
  | .error e =>
      { status := 500, body := .successError e, acquires := 0, releases := 0 }
  | .ok conn =>
      match conn.showTables with
      | .error e =>
          { status := 500, body := .successError e, acquires := 1, releases := 1 }
      | .ok allTables =>
          if tableName ∈ allTables then
            match conn.countTable tableName with
            | .error e =>
                { status := 500, body := .successError e,
                  acquires := 1, releases := 1 }
            | .ok total =>
                match (match limit with
                       | .num l => conn.selectPage tableName ((page - 1) * l) l
                       | .all => conn.selectAll tableName) with
                | .error e =>
                    { status := 500, body := .successError e,
                      acquires := 1, releases := 1 }
                | .ok rows =>
                    { status := 200,
                      body := .tableData (rows.map normalizeRow)
                        ⟨tableName, dbName, mkPagination page limit total⟩,
                      acquires := 1, releases := 1 }
          else
            { status := 404,
              body := .errors [⟨"404", "Not Found",
                "Table \x27" ++ tableName ++ "\x27 not found"⟩],
              acquires := 1, releases := 1 }

/-- JavaScript falsiness of the destructured `query` body field restricted
to the modelled domain: absent (`undefined`) or the empty string. -/
def jsFalsyStr : Option String → Bool
  | none => true
  | some s => s == ""

/-- Embeds `POST /api/query` (server.js lines 400-450): a falsy `query`
is rejected with 400 Bad Request before any connection is acquired; an
acquired connection runs exactly the submitted SQL text, whose thrown
errors become a 500 JSON:API errors body.  The second component lists the
SQL texts passed to `conn.query`. -/
def postQueryRoute (pool : Except String FConn) (dbName : String)
    (q : Option String) : RouteOutcome × List String :=
  if jsFalsyStr q then
    ({ status := 400,
       body := .errors [⟨"400", "Bad Request",
         "Missing \x22query\x22 in request body"⟩],
       acquires := 0, releases := 0 }, [])
  else
    match pool with
    | .error e =>
        ({ status := 500, body := .errors [⟨"500", "Database Error", e⟩],
           acquires := 0, releases := 0 }, [])
    | .ok conn =>
        let sql := q.getD ""
        match conn.rawQuery sql with
        | .ok rows =>
            ({ status := 200,
               body := .queryResult (rows.map normalizeRow) dbName sql,
               acquires := 1, releases := 1 }, [sql])
        | .error e =>
            ({ status := 500,
               body := .errors [⟨"500", "Database Error", e⟩],
               acquires := 1, releases := 1 }, [sql])

/-- The WHATWG URL components of a parsed connection URI, as read by the
resolver (`new URL(mysqlUri)`): `port` is the empty string when absent,
`pathname` the raw path (empty or starting with the separator). -/
structure UrlParts where
  protocol : String
  username : String
  password : String
  hostname : String
  port : String
  pathname : String
deriving DecidableEq

/-- The pool configuration derived from a URI (the `poolOptions` object). -/
structure PoolOptions where
  host : String
  port : Nat
  user : String
  password : String
  database : Option String
  connectionLimit : Nat
deriving DecidableEq

/-- `parseInt(s, 10)` restricted to WHATWG URL port strings, which are
sequences of decimal digits: the usual left-to-right decimal fold. -/
def parseIntPort (s : String) : Nat :=
  s.toList.foldl (fun n c => n * 10 + (c.toNat - 48)) 0

/-- Embeds `parseMySqlUriAndCreatePool` of the mariadb module on the
components of an already-parsed URI (URL parsing itself is the Node WHATWG
parser, an external collaborator): reject a non-`mysql:` protocol, else
build the pool options with `host: url.hostname or "localhost"`,
`port: url.port ? parseInt(url.port, 10) : 3306`, and
`database: url.pathname ? url.pathname.substring(1) : undefined`. -/
def parseMySqlUriAndCreatePool (url : UrlParts) : Except String PoolOptions :=
  if url.protocol ≠ "mysql:" then
    .error "Invalid protocol. URI must start with mysql://"
  else
    .ok { host := if url.hostname = "" then "localhost" else url.hostname
          port := if url.port = "" then 3306 else parseIntPort url.port
          user := url.username
          password := url.password
          database := if url.pathname = "" then none
                      else some (url.pathname.drop 1)
          connectionLimit := 5 }

/-- First entry of a JSON:API errors array, when the body has that shape. -/
def firstError : Body → Option ErrorObj
  | .errors (e :: _) => some e
  | _ => none

/-- Whether a body has the `{errors: [{status, ...}, ...]}` shape with
`errors[0].status` the string form of the given HTTP status code. -/
def mirrorsStatus (code : Nat) (b : Body) : Bool :=
  match firstError b with
  | some e => e.status == toString code
  | none => false

/-- The pagination meta of a successful table-data response. -/
def paginationOf (r : RouteOutcome) : Option Pagination :=
  match r.body with
  | .tableData _ m => some m.pagination
  | _ => none

/-- A database whose single table `t` has no rows. -/
def emptyTableDb : Db where
  tables := ["t"]
  rows := fun _ => []

/-- A connection that lists one table `users` but whose row-level queries
all throw `Connection lost`. -/
def downConn : FConn where
  showTables := .ok ["users"]
  countTable := fun _ => .error "Connection lost"
  selectAll := fun _ => .error "Connection lost"
  selectPage := fun _ _ _ => .error "Connection lost"
  rawQuery := fun _ => .error "Connection lost"

/-- A connection on which every query throws `Connection lost`. -/
def deadConn : FConn where
  showTables := .error "Connection lost"
  countTable := fun _ => .error "Connection lost"
  selectAll := fun _ => .error "Connection lost"
  selectPage := fun _ _ _ => .error "Connection lost"
  rawQuery := fun _ => .error "Connection lost"

/-! ## Theorems -/

/-- Normalizing an already-normalized value is a no-op. -/
theorem normalizeValue_idem (v : DbValue) :
    normalizeValue (normalizeValue v) = normalizeValue v := by
  cases v <;> rfl

/-- C5: the value normalizer is idempotent: applying the row-normalization
step to an already-normalized row returns it unchanged,
`normalizeRow (normalizeRow r) = normalizeRow r`. -/
theorem normalizeRow_idempotent (r : Row) :
    normalizeRow (normalizeRow r) = normalizeRow r := by
  unfold normalizeRow
  rw [List.map_map]
  refine List.map_congr_left fun kv _ => ?_
  simp [Function.comp, normalizeValue_idem]

/-- C4 (amended): the normalizer converts EVERY 64-bit integer field to
its decimal string representation, regardless of magnitude, and leaves
every non-bigint value unchanged; the row step applies this per field. -/
theorem normalize_stringifies_every_bigint :
    (∀ n : Int, normalizeValue (.vBigInt n) = .vStr (toString n)) ∧
    (∀ v : DbValue, (∀ n : Int, v ≠ .vBigInt n) → normalizeValue v = v) ∧
    (∀ r : Row, normalizeRow r = r.map fun kv => (kv.1, normalizeValue kv.2)) := by
  refine ⟨fun n => rfl, fun v hv => ?_, fun r => rfl⟩
  cases v with
  | vBigInt n => exact absurd rfl (hv n)
  | vNull => rfl
  | vBool b => rfl
  | vNum n => rfl
  | vStr s => rfl

/-- Witness for C4 (amended) at concrete values: a non-bigint value
passes through unchanged and a bigint is stringified. -/
theorem normalize_stringifies_every_bigint_witness :
    normalizeValue (.vStr "x") = .vStr "x" ∧
    normalizeValue (.vBigInt 7) = .vStr "7" :=
  ⟨normalize_stringifies_every_bigint.2.1 _ (fun _ h => DbValue.noConfusion h),
   normalize_stringifies_every_bigint.1 7⟩

/-- C4 counterexample: the driver value `bigint 1` lies inside the safe
JSON-number range, yet the source normalizer converts it to the string
"1", diverging from the spec-modelled normalizer, which leaves it unchanged. -/
theorem bigint_in_safe_range_stringified :
    (-maxSafeInteger ≤ (1 : Int) ∧ (1 : Int) ≤ maxSafeInteger) ∧
    normalizeValue (.vBigInt 1) = .vStr "1" ∧
    specNormalizeValue (.vBigInt 1) = .vBigInt 1 ∧
    normalizeValue (.vBigInt 1) ≠ specNormalizeValue (.vBigInt 1) := by
  refine ⟨by decide, rfl, ?_, ?_⟩ <;> decide

/-- C1: the 400, 404 and 500 responses of `GET /api/tables`, the 404 of
`GET /api/tables/:tableName` and the 400/500 of `POST /api/query` all
carry the `{errors: [{status, title, detail}]}` shape with `errors[0].status`
mirroring the HTTP code — but the catch branch of
`GET /api/tables/:tableName` answers 500 with the `{success, error}` body,
which has no `errors` array at all, contradicting the claim (and the
route documentation in the OpenAPI annotation, which lists 500 as `JsonApiError`). -/
theorem tableRoute_catch_branch_not_jsonapi :
    mirrorsStatus 404
      (getTableRoute (.ok emptyTableDb.conn) "mydb" "missing" 1 (.num 50)).body
        = true ∧
    mirrorsStatus 500 (getTablesRoute (.ok deadConn)).body = true ∧
    mirrorsStatus 400 (postQueryRoute (.ok deadConn) "mydb" none).1.body = true ∧
    mirrorsStatus 500
      (postQueryRoute (.ok deadConn) "mydb" (some "SELECT 1")).1.body = true ∧
    (getTableRoute (.ok downConn) "mydb" "users" 1 (.num 50)).status = 500 ∧
    (getTableRoute (.ok downConn) "mydb" "users" 1 (.num 50)).body
        = .successError "Connection lost" ∧
    mirrorsStatus 500
      (getTableRoute (.ok downConn) "mydb" "users" 1 (.num 50)).body = false := by
  refine ⟨?_, ?_, ?_, ?_, ?_, ?_, ?_⟩ <;> rfl

/-- C2 counterexample: an existing table with zero rows, requested with
`page = 1, limit = 50`, yields a successful response whose
`meta.pagination.pages` is 0 — not at least 1 as the claim states. -/
theorem pages_zero_on_empty_table :
    getTableRoute (.ok emptyTableDb.conn) "mydb" "t" 1 (.num 50) =
      { status := 200,
        body := .tableData [] ⟨"t", "mydb", ⟨1, .vNum 50, 0, 0⟩⟩,
        acquires := 1, releases := 1 } ∧ ¬ (1 : Nat) ≤ 0 := by
  exact ⟨rfl, by decide⟩

/-- C2 (amended): for an existing table, `meta.pagination.pages` equals
`⌈total / limit⌉` for a positive integer limit and 1 for `limit = "all"`;
hence `pages ≥ 1` whenever `total ≥ 1` or the limit is `"all"`, but
`pages = 0` when `total = 0` with a numeric limit. -/
theorem getTable_pages_value (db : Db) (dbName t : String) (page l : Nat)
    (ht : t ∈ db.tables) (hl : 1 ≤ l) :
    (paginationOf (getTableRoute (.ok db.conn) dbName t page (.num l))).map
        Pagination.pages = some ((db.rows t).length ⌈/⌉ l) ∧
    (paginationOf (getTableRoute (.ok db.conn) dbName t page .all)).map
        Pagination.pages = some 1 ∧
    (1 ≤ (db.rows t).length → 1 ≤ (db.rows t).length ⌈/⌉ l) ∧
    ((db.rows t).length = 0 → (db.rows t).length ⌈/⌉ l = 0) := by
  refine ⟨?_, ?_, ?_, ?_⟩
  · simp [getTableRoute, Db.conn, paginationOf, mkPagination, ht,
      Nat.ceilDiv_eq_add_pred_div]
  · simp [getTableRoute, Db.conn, paginationOf, mkPagination, ht]
  · intro h
    rw [Nat.ceilDiv_eq_add_pred_div, Nat.one_le_div_iff hl]
    omega
  · intro h
    rw [Nat.ceilDiv_eq_add_pred_div, h]
    exact Nat.div_eq_of_lt (by omega)

/-- Witness for C2 (amended): a table with one row and `limit = 2` has
`pages = ⌈1/2⌉ = 1`; with `limit = "all"` it has `pages = 1`. -/
theorem getTable_pages_value_witness :
    (paginationOf (getTableRoute (.ok (Db.conn ⟨["t"], fun _ => [[("a", .vNum 1)]]⟩))
        "mydb" "t" 1 (.num 2))).map Pagination.pages = some 1 ∧
    (paginationOf (getTableRoute (.ok (Db.conn ⟨["t"], fun _ => [[("a", .vNum 1)]]⟩))
        "mydb" "t" 1 .all)).map Pagination.pages = some 1 := by
  have h := getTable_pages_value ⟨["t"], fun _ => [[("a", .vNum 1)]]⟩
    "mydb" "t" 1 2 (by decide) (by decide)
  exact ⟨h.1, h.2.1⟩

/-- C3: with a positive integer limit `l` and positive page, an existing
table is answered 200 with exactly the rows obtained by skipping
`(page-1)*l` rows and taking at most `l` (the `LIMIT (page-1)*l, l`
query), normalized; at most `l` rows are returned; and
`meta.pagination.pages = ⌈total / l⌉` with `total` the row count of the table. -/
theorem getTable_paging (db : Db) (dbName t : String) (page l : Nat)
    (ht : t ∈ db.tables) (hp : 1 ≤ page) (hl : 1 ≤ l) :
    getTableRoute (.ok db.conn) dbName t page (.num l) =
      { status := 200,
        body := .tableData
          ((((db.rows t).drop ((page - 1) * l)).take l).map normalizeRow)
          ⟨t, dbName,
            ⟨page, .vNum (l : Int), (db.rows t).length,
              (db.rows t).length ⌈/⌉ l⟩⟩,
        acquires := 1, releases := 1 } ∧
    ((((db.rows t).drop ((page - 1) * l)).take l).map normalizeRow).length ≤ l := by
  constructor
  · simp [getTableRoute, Db.conn, mkPagination, ht, Nat.ceilDiv_eq_add_pred_div]
  · simp [List.length_map, List.length_take]

/-- Witness for C3: a 3-row table requested with `page = 2, limit = 2`
returns just the third row (offset 2, cap 2) and `pages = ⌈3/2⌉ = 2`. -/
theorem getTable_paging_witness :
    getTableRoute
        (.ok (Db.conn ⟨["t"], fun _ => [[("a", .vNum 1)], [("a", .vNum 2)], [("a", .vNum 3)]]⟩))
        "mydb" "t" 2 (.num 2) =
      { status := 200,
        body := .tableData [[("a", .vNum 3)]]
          ⟨"t", "mydb", ⟨2, .vNum 2, 3, 2⟩⟩,
        acquires := 1, releases := 1 } ∧ (1 : Nat) ≤ 2 := by
  have h := getTable_paging
    ⟨["t"], fun _ => [[("a", .vNum 1)], [("a", .vNum 2)], [("a", .vNum 3)]]⟩
    "mydb" "t" 2 2 (by decide) (by decide) (by decide)
  exact ⟨by rw [h.1]; rfl, by decide⟩

/-- C7: with `limit = "all"` an existing table is answered 200 with ALL
its rows (no limit or offset), normalized; `meta.pagination.pages = 1`;
and `meta.pagination.total` equals the number of rows returned. -/
theorem getTable_limit_all (db : Db) (dbName t : String) (page : Nat)
    (ht : t ∈ db.tables) :
    getTableRoute (.ok db.conn) dbName t page .all =
      { status := 200,
        body := .tableData ((db.rows t).map normalizeRow)
          ⟨t, dbName,
            ⟨page, .vNum ((db.rows t).length : Int), (db.rows t).length, 1⟩⟩,
        acquires := 1, releases := 1 } ∧
    ((db.rows t).map normalizeRow).length = (db.rows t).length := by
  constructor
  · simp [getTableRoute, Db.conn, mkPagination, ht]
  · simp [List.length_map]

/-- Witness for C7: a 2-row table with `limit = "all"` returns both rows,
`pages = 1` and `total = 2` = number of returned rows. -/
theorem getTable_limit_all_witness :
    getTableRoute (.ok (Db.conn ⟨["t"], fun _ => [[("a", .vNum 1)], [("a", .vNum 2)]]⟩))
        "mydb" "t" 1 .all =
      { status := 200,
        body := .tableData [[("a", .vNum 1)], [("a", .vNum 2)]]
          ⟨"t", "mydb", ⟨1, .vNum 2, 2, 1⟩⟩,
        acquires := 1, releases := 1 } := by
  have h := getTable_limit_all ⟨["t"], fun _ => [[("a", .vNum 1)], [("a", .vNum 2)]]⟩
    "mydb" "t" 1 (by decide)
  rw [h.1]; rfl

/-- C10: the serialized `meta.pagination.limit` of a successful table-data
response is the JSON number `total` when the limit of the request is the
sentinel `"all"` — never the string `"all"` — and the JSON number `l`
when the limit is a parsed positive integer `l`. -/
theorem getTable_limit_field (db : Db) (dbName t : String) (page l : Nat)
    (ht : t ∈ db.tables) :
    (paginationOf (getTableRoute (.ok db.conn) dbName t page .all)).map
        Pagination.limit = some (.vNum ((db.rows t).length : Int)) ∧
    (paginationOf (getTableRoute (.ok db.conn) dbName t page (.num l))).map
        Pagination.limit = some (.vNum (l : Int)) ∧
    (paginationOf (getTableRoute (.ok db.conn) dbName t page .all)).map
        Pagination.limit ≠ some (.vStr "all") := by
  refine ⟨?_, ?_, ?_⟩
  · simp [getTableRoute, Db.conn, paginationOf, mkPagination, ht]
  · simp [getTableRoute, Db.conn, paginationOf, mkPagination, ht]
  · simp [getTableRoute, Db.conn, paginationOf, mkPagination, ht]

/-- Witness for C10: on the empty table `t` with `limit = "all"`, the
serialized limit field is the number 0, and with `limit = 50` it is 50. -/
theorem getTable_limit_field_witness :
    (paginationOf (getTableRoute (.ok emptyTableDb.conn) "mydb" "t" 1 .all)).map
        Pagination.limit = some (.vNum 0) ∧
    (paginationOf (getTableRoute (.ok emptyTableDb.conn) "mydb" "t" 1 (.num 50))).map
        Pagination.limit = some (.vNum 50) := by
  have h := getTable_limit_field emptyTableDb "mydb" "t" 1 50 (by decide)
  exact ⟨h.1, h.2.1⟩

/-- C6: for every parsed connection URI accepted by the resolver (protocol
`mysql:`), the host of the descriptor is the URI host, or `localhost` when
absent; its port is the parsed integer port, or 3306 when absent; and its
database is the URI path with the leading separator stripped, or
`undefined` (`none`) when the path is empty. -/
theorem resolver_descriptor_fields (url : UrlParts) (h : url.protocol = "mysql:") :
    ∃ opts, parseMySqlUriAndCreatePool url = .ok opts ∧
      opts.host = (if url.hostname = "" then "localhost" else url.hostname) ∧
      opts.port = (if url.port = "" then 3306 else parseIntPort url.port) ∧
      opts.database = (if url.pathname = "" then none
                       else some (url.pathname.drop 1)) := by
  unfold parseMySqlUriAndCreatePool
  rw [if_neg (by simp [h])]
  exact ⟨_, rfl, rfl, rfl, rfl⟩

/-- Witness for C6: `mysql://root:secret@:/shop` style components with an
absent host and port resolve to `localhost:3306` with database `shop`;
port `"3307"` parses to 3307. -/
theorem resolver_descriptor_fields_witness :
    (∃ opts, parseMySqlUriAndCreatePool ⟨"mysql:", "root", "secret", "", "", "/shop"⟩
        = .ok opts ∧ opts.host = "localhost" ∧ opts.port = 3306 ∧
        opts.database = some "shop") ∧
    (∃ opts, parseMySqlUriAndCreatePool ⟨"mysql:", "root", "secret", "db.example", "3307", ""⟩
        = .ok opts ∧ opts.host = "db.example" ∧ opts.port = 3307 ∧
        opts.database = none) := by
  constructor
  · obtain ⟨o, h1, h2, h3, h4⟩ :=
      resolver_descriptor_fields ⟨"mysql:", "root", "secret", "", "", "/shop"⟩ rfl
    exact ⟨o, h1, by simpa using h2, by simpa using h3, by simpa using h4⟩
  · obtain ⟨o, h1, h2, h3, h4⟩ :=
      resolver_descriptor_fields ⟨"mysql:", "root", "secret", "db.example", "3307", ""⟩ rfl
    refine ⟨o, h1, by simpa using h2, ?_, by simpa using h4⟩
    rw [h3]; decide

/-- C8: on each of the three routes, release calls always balance
acquisition calls, and whenever a connection is acquired (the pool hands
one out, and — for the query route — the request passed validation so the
handler reaches acquisition) it is released exactly once, on every exit
path: success, the 404 validation-failure early return, and any driver
error during query execution. -/
theorem routes_release_balanced (pool : Except String FConn) (conn : FConn)
    (dbName t : String) (page : Nat) (limit : LimitParam) (q : Option String) :
    (getTablesRoute pool).releases = (getTablesRoute pool).acquires ∧
    (getTableRoute pool dbName t page limit).releases
        = (getTableRoute pool dbName t page limit).acquires ∧
    (postQueryRoute pool dbName q).1.releases
        = (postQueryRoute pool dbName q).1.acquires ∧
    (getTablesRoute (.ok conn)).acquires = 1 ∧
    (getTablesRoute (.ok conn)).releases = 1 ∧
    (getTableRoute (.ok conn) dbName t page limit).acquires = 1 ∧
    (getTableRoute (.ok conn) dbName t page limit).releases = 1 ∧
    (jsFalsyStr q = false →
      (postQueryRoute (.ok conn) dbName q).1.acquires = 1 ∧
      (postQueryRoute (.ok conn) dbName q).1.releases = 1) := by
  have hTablesBal : ∀ c : FConn, (getTablesRoute (.ok c)).acquires = 1 ∧
      (getTablesRoute (.ok c)).releases = 1 := by
    intro c
    cases h : c.showTables <;> simp [getTablesRoute, h]
  have hTableBal : ∀ c : FConn,
      (getTableRoute (.ok c) dbName t page limit).acquires = 1 ∧
      (getTableRoute (.ok c) dbName t page limit).releases = 1 := by
    intro c
    cases h : c.showTables with
    | error e => simp [getTableRoute, h]
    | ok ts =>
      by_cases hmem : t ∈ ts
      · cases hc : c.countTable t with
        | error e => simp [getTableRoute, h, hmem, hc]
        | ok total =>
          cases limit with
          | all =>
            cases hr : c.selectAll t <;> simp [getTableRoute, h, hmem, hc, hr]
          | num l =>
            cases hr : c.selectPage t ((page - 1) * l) l <;>
              simp [getTableRoute, h, hmem, hc, hr]
      · simp [getTableRoute, h, hmem]
  have hQueryBal : ∀ p : Except String FConn,
      (postQueryRoute p dbName q).1.releases
          = (postQueryRoute p dbName q).1.acquires := by
    intro p
    by_cases hfq : jsFalsyStr q
    · simp [postQueryRoute, hfq]
    · cases p with
      | error e => simp [postQueryRoute, hfq]
      | ok c =>
        cases hr : c.rawQuery (q.getD "") <;> simp [postQueryRoute, hfq, hr]
  refine ⟨?_, ?_, hQueryBal pool, (hTablesBal conn).1, (hTablesBal conn).2,
    (hTableBal conn).1, (hTableBal conn).2, ?_⟩
  · cases pool with
    | error e => rfl
    | ok c => rw [(hTablesBal c).1, (hTablesBal c).2]
  · cases pool with
    | error e => rfl
    | ok c => rw [(hTableBal c).1, (hTableBal c).2]
  · intro hfq
    have hq : ¬ (jsFalsyStr q = true) := by simp [hfq]
    cases hr : conn.rawQuery (q.getD "") <;>
      simp [postQueryRoute, hq, hr]

/-- Witness for C8: on a concrete connection and a non-empty query, the
query route acquires and releases exactly once. -/
theorem routes_release_balanced_witness :
    (postQueryRoute (.ok downConn) "mydb" (some "SELECT 1")).1.acquires = 1 ∧
    (postQueryRoute (.ok downConn) "mydb" (some "SELECT 1")).1.releases = 1 :=
  (routes_release_balanced (.ok downConn) downConn "mydb" "t" 1 (.num 50)
    (some "SELECT 1")).2.2.2.2.2.2.2 rfl

/-- C9: a `POST /api/query` request whose body lacks the `query` key or
whose query text is empty is answered 400 with `errors[0].title`
`Bad Request` and no SQL is sent to the database; a request with a
non-empty query text sends exactly that SQL text. -/
theorem postQuery_validation (conn : FConn) (dbName : String)
    (q : Option String) (s : String) :
    (jsFalsyStr q = true →
      (postQueryRoute (.ok conn) dbName q).1.status = 400 ∧
      (firstError (postQueryRoute (.ok conn) dbName q).1.body).map
          ErrorObj.title = some "Bad Request" ∧
      (postQueryRoute (.ok conn) dbName q).2 = []) ∧
    (s ≠ "" → (postQueryRoute (.ok conn) dbName (some s)).2 = [s]) := by
  constructor
  · intro hfq
    simp [postQueryRoute, hfq, firstError]
  · intro hs
    cases hr : conn.rawQuery s with
    | ok rows => simp [postQueryRoute, jsFalsyStr, hs, hr]
    | error e => simp [postQueryRoute, jsFalsyStr, hs, hr]

/-- Witness for C9: the missing-key and empty-string requests are refused
with 400/`Bad Request` and run nothing; `SELECT 1` runs exactly itself. -/
theorem postQuery_validation_witness :
    ((postQueryRoute (.ok downConn) "mydb" none).1.status = 400 ∧
      (firstError (postQueryRoute (.ok downConn) "mydb" none).1.body).map
          ErrorObj.title = some "Bad Request" ∧
      (postQueryRoute (.ok downConn) "mydb" none).2 = []) ∧
    ((postQueryRoute (.ok downConn) "mydb" (some "")).2 = []) ∧
    ((postQueryRoute (.ok downConn) "mydb" (some "SELECT 1")).2 = ["SELECT 1"]) :=
  ⟨(postQuery_validation downConn "mydb" none "x").1 rfl,
   ((postQuery_validation downConn "mydb" (some "") "x").1 rfl).2.2,
   (postQuery_validation downConn "mydb" none "SELECT 1").2 (by decide)⟩

end SqlBrowser
